import Mathlib

/-!
Shallow embedding of `src/Sqlite/ChatSql.py`: a local persistence layer for a
chat application (masks = personas, dialogues = named conversations, messages).

Modelling conventions:
* the SQLite database content is a `ChatState`: lists of rows in insertion
  order, plus the autoincrement counters for the two surrogate keys;
* each repository method becomes a pure function from a `ChatState` (and its
  arguments) to an `Outcome`: the new state, the returned value, the strings
  written to the logging collaborator (`app_logger.info`), and the strings
  printed to stdout;
* every method body in the source is wrapped in `try ... except Exception as e:
  app_logger.info(str(e))`; a storage-layer failure is modelled by the
  `fault : Option String` argument, injected at the session boundary (the
  `with self.DB_session() as session:` line).  Since a Lean function is total,
  "no exception propagates to the caller" is reflected by the very type of the
  embedded methods;
* `datetime` timestamps are modelled as `Nat` clock values; Python library
  primitives used by the source (`str.split(' ')`, `int(...)`, list slicing
  `l[:n]`, `sorted(..., reverse=True)`) are embedded as the structural
  functions `pySplit`, `pyInt`, `pySlice`, `sortDescById` below.
-/

/-- Embeds the Python enum `SenderType` (USER = 0, GPT = 1). -/
inductive SenderType where
  | USER
  | GPT
deriving DecidableEq

/-- Embeds the Python enum `SendType` (TEXT = 0, IMAGE = 1, AUDIO = 2). -/
inductive SendType where
  | TEXT
  | IMAGE
  | AUDIO
deriving DecidableEq

/-- Python `SenderType.name` as used in the f-string of `__format__`. -/
def SenderType.pname : SenderType → String
  | .USER => "USER"
  | .GPT => "GPT"

/-- Python `SendType.name` as used in the f-string of `__format__`. -/
def SendType.pname : SendType → String
  | .TEXT => "TEXT"
  | .IMAGE => "IMAGE"
  | SendType.AUDIO => "AUDIO"

/-- A row of the `mask` table: surrogate key `mask_id` (autoincrement),
`mask_name` (declared UNIQUE), `mask_describe`. -/
structure Mask where
  mask_id : Nat
  mask_name : String
  mask_describe : String
deriving DecidableEq

/-- A row of the `dialogue` table: `dialogue_name` is the primary key,
`mask_id` is a nullable foreign key into `mask`. -/
structure Dialogue where
  dialogue_name : String
  mask_id : Option Nat
deriving DecidableEq

/-- A row of the `message` table.  `dialogue_name` is the foreign key into
`dialogue`; it is `none` when the SQLAlchemy relationship was set from a
failed lookup (`Message(dialogue=None, ...)`). -/
structure Message where
  id : Nat
  sender : SenderType
  send_time : Nat
  send_type : SendType
  send_info : String
  send_succeed : Bool
  dialogue_name : Option String
deriving DecidableEq

/-- The content of `chat.db`: the three tables in row-insertion order and the
autoincrement counters (SQLite hands out 1, 2, 3, ... for the integer primary
keys of `mask` and `message`). -/
structure ChatState where
  masks : List Mask
  dialogues : List Dialogue
  messages : List Message
  next_mask_id : Nat
  next_message_id : Nat
deriving DecidableEq

/-- A fresh `chat.db`: no rows, both autoincrement counters at 1. -/
def emptyState : ChatState := ⟨[], [], [], 1, 1⟩

/-- Result of one repository call: the state after the call, the Python return
value, the lines written to `app_logger.info`, and the lines printed. -/
structure Outcome (α : Type) where
  state : ChatState
  ret : α
  logs : List String
  prints : List String
deriving DecidableEq

/-- Embeds `session.query(Mask).filter_by(mask_name=name).first()`: the first row of
the table whose `mask_name` matches. -/
def ChatState.firstMask (s : ChatState) (name : String) : Option Mask :=
  s.masks.find? (fun m => m.mask_name == name)

/-- Embeds `session.query(Dialogue).filter_by(dialogue_name=name).first()`. -/
def ChatState.firstDialogue (s : ChatState) (name : String) : Option Dialogue :=
  s.dialogues.find? (fun d => d.dialogue_name == name)

/-- Embeds `session.query(Message).get(message_id)`: lookup by primary key. -/
def ChatState.firstMessage (s : ChatState) (i : Nat) : Option Message :=
  s.messages.find? (fun m => m.id == i)

/-- The SQLAlchemy relationship `dialogue.messages`: the rows of `message`
whose foreign key equals the dialogue's name, in row order. -/
def ChatState.dialogueMessages (s : ChatState) (name : String) : List Message :=
  s.messages.filter (fun m => m.dialogue_name == some name)

/-- Embeds Python `s.split(' ')` (split on every single space, keeping empty
fields): the worker over the character list, with the accumulated current
field held in reverse. -/
def splitSpaceAux : List Char → List Char → List String
  | [], acc => [String.mk acc.reverse]
  | c :: cs, acc =>
    if c = ' ' then String.mk acc.reverse :: splitSpaceAux cs []
    else splitSpaceAux cs (c :: acc)

/-- Python `format_spec.split(' ')`. -/
def pySplit (s : String) : List String := splitSpaceAux s.toList []

/-- Digit-string accumulator for `pyInt`. -/
def natDigitsAux : List Char → Nat → Option Nat
  | [], acc => some acc
  | c :: cs, acc =>
    if c.isDigit then natDigitsAux cs (acc * 10 + (c.toNat - 48)) else none

/-- Embeds Python `int(s)` for base-10 literals: an optional leading minus
sign followed by at least one digit; anything else raises `ValueError`
(modelled as the error string the except-branch would log and return). -/
def pyInt (s : String) : Except String Int :=
  match s.toList with
  | [] => Except.error ("invalid literal for int() with base 10: " ++ s)
  | '-' :: cs =>
    match cs, natDigitsAux cs 0 with
    | _ :: _, some n => Except.ok (-(n : Int))
    | _, _ => Except.error ("invalid literal for int() with base 10: " ++ s)
  | cs =>
    match natDigitsAux cs 0 with
    | some n => Except.ok (n : Int)
    | none => Except.error ("invalid literal for int() with base 10: " ++ s)

/-- Embeds the Python slice `l[:n]` for an `int` bound `n`: nonnegative `n`
keeps the first `n` elements, negative `n` drops the last `|n|`. -/
def pySlice (n : Int) (l : List α) : List α :=
  if 0 ≤ n then l.take n.toNat else l.take (l.length - n.natAbs)

/-- Embeds the Python substring test `needle in hay` over character lists:
`needle` is a prefix of some suffix of `hay`. -/
def containsSub (needle : List Char) : List Char → Bool
  | [] => needle.isPrefixOf []
  | c :: cs => needle.isPrefixOf (c :: cs) || containsSub needle cs

/-- One insertion step of the stable sort embedding
`sorted(messages, key=lambda x: x.id, reverse=True)`: place `m` before the
first element whose id is not larger. -/
def insertDescById (m : Message) : List Message → List Message
  | [] => [m]
  | x :: xs => if x.id ≤ m.id then m :: x :: xs else x :: insertDescById m xs

/-- Embeds `sorted(messages, key=lambda x: x.id, reverse=True)` (stable,
descending by id). -/
def sortDescById : List Message → List Message
  | [] => []
  | m :: rest => insertDescById m (sortDescById rest)

namespace ChatSql

/-- Line 106 of the source tests `if session.query(Dialogue).filter_by(
dialogue_name=name):`.  The tested value is a SQLAlchemy `Query` object, which
defines neither `__bool__` nor `__len__`, so Python falls back to default
object truthiness: the condition is always `True`. -/
def queryIsTruthy : Bool := true

/-- Embeds `ChatSql.add_mask(mask_name, mask_describe="")`: inserts a new `Mask` row;
a duplicate `mask_name` violates the UNIQUE constraint at commit, which the
except-branch catches and logs (the transaction is rolled back, no write). -/
def add_mask (fault : Option String) (s : ChatState)
    (mask_name mask_describe : String) : Outcome Unit :=
  match fault with
  | some e => ⟨s, (), [e], []⟩
  | none =>
    if s.masks.any (fun m => m.mask_name == mask_name) then
      ⟨s, (), ["UNIQUE constraint failed: mask.mask_name"], []⟩
    else
      ⟨{ s with
          masks := s.masks ++ [⟨s.next_mask_id, mask_name, mask_describe⟩],
          next_mask_id := s.next_mask_id + 1 }, (), [], []⟩

/-- Embeds `ChatSql.__init__`: creates the schema if absent (a no-op on the state
model) and then runs `self.add_mask("default")`; its own try/except catches a
failure before that call. -/
def init (fault : Option String) (s : ChatState) : Outcome Unit :=
  match fault with
  | some e => ⟨s, (), [e], []⟩
  | none =>
    let o := add_mask none s "default" ""
    ⟨o.state, (), o.logs, o.prints⟩

/-- Embeds `ChatSql.create_dialogue(name, mask_name="")`: resolves the mask (falling
back to `"default"` when the argument is empty or matches no mask), then tests
the always-truthy `Query` object (see `queryIsTruthy`) and returns; the insert
on the else-branch is dead code.  The except-branch both logs and prints. -/
def create_dialogue (fault : Option String) (s : ChatState)
    (name mask_name : String) : Outcome Unit :=
  match fault with
  | some e => ⟨s, (), [e], [e]⟩
  | none =>
    let mask0 := s.firstMask mask_name
    let mask := if mask_name == "" || mask0.isNone then s.firstMask "default" else mask0
    if queryIsTruthy then
      ⟨s, (), [], []⟩
    else
      match mask with
      | some m =>
        ⟨{ s with dialogues := s.dialogues ++ [⟨name, some m.mask_id⟩] }, (), [], []⟩
      | none =>
        ⟨s, (), ["AttributeError: NoneType object has no attribute mask_id"],
          ["AttributeError: NoneType object has no attribute mask_id"]⟩

/-- Embeds `ChatSql.add_message(dialogue_name, sender, send_type, send_info,
send_succeed, send_time=datetime.now())`.  The Python default for `send_time`
is evaluated once, when the method is defined: `defaultSendTime` is that
module-definition-time clock value, shared by every call that omits the
argument (`send_time = none`).  A failed dialogue lookup is printed and the
message is inserted anyway with a null foreign key. -/
def add_message (fault : Option String) (defaultSendTime : Nat) (s : ChatState)
    (dialogue_name : String) (sender : SenderType) (send_type : SendType)
    (send_info : String) (send_succeed : Bool) (send_time : Option Nat) :
    Outcome Unit :=
  match fault with
  | some e => ⟨s, (), [e], []⟩
  | none =>
    let dialogue := s.firstDialogue dialogue_name
    let prints :=
      if dialogue.isNone then ["Dialogue with name " ++ dialogue_name ++ " not found"]
      else []
    let message : Message :=
      ⟨s.next_message_id, sender, send_time.getD defaultSendTime, send_type,
        send_info, send_succeed, dialogue.map (fun d => d.dialogue_name)⟩
    ⟨{ s with
        messages := s.messages ++ [message],
        next_message_id := s.next_message_id + 1 }, (), [], prints⟩

/-- Embeds `ChatSql.update_message(message_id, new_send_info)`: loads the message by
primary key; if present overwrites `send_info` and commits, otherwise prints a
not-found report and writes nothing. -/
def update_message (fault : Option String) (s : ChatState)
    (message_id : Nat) (new_send_info : String) : Outcome Unit :=
  match fault with
  | some e => ⟨s, (), [e], []⟩
  | none =>
    match s.firstMessage message_id with
    | some _ =>
      ⟨{ s with
          messages := s.messages.map (fun m =>
            if m.id == message_id then { m with send_info := new_send_info } else m) },
        (), [], []⟩
    | none =>
      ⟨s, (), [], ["Message with id " ++ toString message_id ++ " not found"]⟩

/-- Embeds `ChatSql.delete_message(message_id)`: loads by primary key; deletes if
present, otherwise prints a not-found report. -/
def delete_message (fault : Option String) (s : ChatState)
    (message_id : Nat) : Outcome Unit :=
  match fault with
  | some e => ⟨s, (), [e], []⟩
  | none =>
    match s.firstMessage message_id with
    | some _ =>
      ⟨{ s with messages := s.messages.filter (fun m => m.id != message_id) }, (), [], []⟩
    | none =>
      ⟨s, (), [], ["Message with id " ++ toString message_id ++ " not found"]⟩

/-- Embeds `ChatSql.get_dialogue(dialogue_name)`: returns the first matching row or
`None`; on a caught failure the implicit return value is also `None`. -/
def get_dialogue (fault : Option String) (s : ChatState)
    (dialogue_name : String) : Outcome (Option Dialogue) :=
  match fault with
  | some e => ⟨s, none, [e], []⟩
  | none => ⟨s, s.firstDialogue dialogue_name, [], []⟩

/-- Embeds `ChatSql.get_messages(dialogue_name)`: the dialogue's related messages in
row order if the dialogue exists, `[]` if it does not, and Python `None`
(modelled `none`) on a caught storage failure. -/
def get_messages (fault : Option String) (s : ChatState)
    (dialogue_name : String) : Outcome (Option (List Message)) :=
  match fault with
  | some e => ⟨s, none, [e], []⟩
  | none =>
    match s.firstDialogue dialogue_name with
    | some d => ⟨s, some (s.dialogueMessages d.dialogue_name), [], []⟩
    | none => ⟨s, some [], [], []⟩

/-- Embeds `ChatSql.get_mask(mask_name)`: first matching row or `None`. -/
def get_mask (fault : Option String) (s : ChatState)
    (mask_name : String) : Outcome (Option Mask) :=
  match fault with
  | some e => ⟨s, none, [e], []⟩
  | none => ⟨s, s.firstMask mask_name, [], []⟩

/-- Embeds `ChatSql.delete_mask(mask_name)`: looks the mask up through `get_mask`
(which opens its own session), deletes the row with that primary key if found,
otherwise prints a not-found report. -/
def delete_mask (fault : Option String) (s : ChatState)
    (mask_name : String) : Outcome Unit :=
  match fault with
  | some e => ⟨s, (), [e], []⟩
  | none =>
    match (get_mask none s mask_name).ret with
    | some mask =>
      ⟨{ s with masks := s.masks.filter (fun m => m.mask_id != mask.mask_id) }, (), [], []⟩
    | none =>
      ⟨s, (), [], ["Mask with name " ++ mask_name ++ " not found"]⟩

/-- Python `f"{dialogue.mask_id}"` prints `None` for a null column. -/
def optNatStr : Option Nat → String
  | none => "None"
  | some n => toString n

/-- One line of the `"dialogues"` report. -/
def dialogue_line (d : Dialogue) : String :=
  "对话名: " ++ d.dialogue_name ++ ", 面具id: " ++ optNatStr d.mask_id

/-- One line of the `"masks"` report. -/
def mask_line (m : Mask) : String :=
  "面具id: " ++ toString m.mask_id ++ ", 面具名: " ++ m.mask_name ++
    ", 面具描述: " ++ m.mask_describe

/-- One line of the `"messages ..."` report (Python booleans print as
`True`/`False`). -/
def message_line (m : Message) : String :=
  "信息id: " ++ toString m.id ++ ", 发送者: " ++ m.sender.pname ++
    ", 发送时间: " ++ toString m.send_time ++ ", 发送类型: " ++ m.send_type.pname ++
    ", 发送内容: " ++ m.send_info ++ ", 发送是否成功: " ++
    (if m.send_succeed then "True" else "False")

/-- Embeds `ChatSql.__format__(format_spec)` (the `render` operation): dispatches on
the spec string.  The only in-body failure point besides the injected session
fault is `int(target_format[-1])`; when it raises, the except-branch logs
`str(e)` and returns it, which is inlined here.  The unknown-specifier branch
logs and falls off the method, returning Python `None` (modelled `none`). -/
def format (fault : Option String) (s : ChatState)
    (format_spec : String) : Outcome (Option String) :=
  match fault with
  | some e => ⟨s, some e, [e], []⟩
  | none =>
    if format_spec == "dialogues" then
      ⟨s, some (String.intercalate "\n" (s.dialogues.map dialogue_line)), [], []⟩
    else if format_spec == "masks" then
      ⟨s, some (String.intercalate "\n" (s.masks.map mask_line)), [], []⟩
    else if containsSub "messages".toList format_spec.toList then
      let target_format := pySplit format_spec
      if target_format.length < 2 then
        ⟨s, some "Miss parameters", [], []⟩
      else
        match pyInt (target_format.getLastD "") with
        | Except.error e => ⟨s, some e, [e], []⟩
        | Except.ok update_num =>
          let dialogue_name := target_format.getD 1 ""
          match s.firstDialogue dialogue_name with
          | some d =>
            let messages := s.dialogueMessages d.dialogue_name
            let sorted_messages := sortDescById messages
            let print_messages := pySlice update_num sorted_messages
            ⟨s, some (String.intercalate "\n" (print_messages.map message_line)), [], []⟩
          | none =>
            ⟨s, some ("未找到 " ++ dialogue_name ++ " 这个对话"), [], []⟩
    else
      ⟨s, none, ["Unknown format specifier"], []⟩

end ChatSql

/-- The Python return value of one repository operation, unified over the
operations so that the error policy can be stated once. -/
inductive RetVal where
  | unit
  | mask (m : Option Mask)
  | dialogue (d : Option Dialogue)
  | messageList (l : Option (List Message))
  | str (s : Option String)
deriving DecidableEq

/-- One call to the public surface of `ChatSql`, with its arguments. -/
inductive Op where
  | opInit
  | opAddMask (mask_name mask_describe : String)
  | opGetMask (mask_name : String)
  | opDeleteMask (mask_name : String)
  | opCreateDialogue (name mask_name : String)
  | opGetDialogue (dialogue_name : String)
  | opAddMessage (dialogue_name : String) (sender : SenderType)
      (send_type : SendType) (send_info : String) (send_succeed : Bool)
      (send_time : Option Nat)
  | opUpdateMessage (message_id : Nat) (new_send_info : String)
  | opDeleteMessage (message_id : Nat)
  | opGetMessages (dialogue_name : String)
  | opFormat (format_spec : String)
deriving DecidableEq

/-- Repackage an `Outcome` with a converted return value. -/
def mapOutcome (f : α → β) (o : Outcome α) : Outcome β :=
  ⟨o.state, f o.ret, o.logs, o.prints⟩

/-- Dispatch one operation against the store.  `defaultSendTime` is the
module-definition-time clock baked into `add_message`'s defaulted parameter;
`fault` injects a storage-layer failure at the session boundary. -/
def runOp (defaultSendTime : Nat) (fault : Option String) (s : ChatState) :
    Op → Outcome RetVal
  | .opInit => mapOutcome (fun _ => .unit) (ChatSql.init fault s)
  | .opAddMask n d => mapOutcome (fun _ => .unit) (ChatSql.add_mask fault s n d)
  | .opGetMask n => mapOutcome .mask (ChatSql.get_mask fault s n)
  | .opDeleteMask n => mapOutcome (fun _ => .unit) (ChatSql.delete_mask fault s n)
  | .opCreateDialogue n mn => mapOutcome (fun _ => .unit) (ChatSql.create_dialogue fault s n mn)
  | .opGetDialogue n => mapOutcome .dialogue (ChatSql.get_dialogue fault s n)
  | .opAddMessage dn sender ty info succ t =>
      mapOutcome (fun _ => .unit)
        (ChatSql.add_message fault defaultSendTime s dn sender ty info succ t)
  | .opUpdateMessage i v => mapOutcome (fun _ => .unit) (ChatSql.update_message fault s i v)
  | .opDeleteMessage i => mapOutcome (fun _ => .unit) (ChatSql.delete_message fault s i)
  | .opGetMessages n => mapOutcome .messageList (ChatSql.get_messages fault s n)
  | .opFormat spec => mapOutcome .str (ChatSql.format fault s spec)

/-- The neutral value each operation hands back when its session fails: the
absent value for every operation except `__format__`, which returns the caught
error's message string. -/
def neutralRet (op : Op) (e : String) : RetVal :=
  match op with
  | .opGetMask _ => .mask none
  | .opGetDialogue _ => .dialogue none
  | .opGetMessages _ => .messageList none
  | .opFormat _ => .str (some e)
  | _ => .unit

/-- Fixture store for witnesses: the `"default"` mask, one dialogue `"D1"`
bound to it, and two messages in `"D1"` with ids 1 and 2. -/
def wState : ChatState :=
  ⟨[⟨1, "default", ""⟩], [⟨"D1", some 1⟩],
    [⟨1, SenderType.USER, 3, SendType.TEXT, "hi", true, some "D1"⟩,
     ⟨2, SenderType.GPT, 4, SendType.TEXT, "yo", true, some "D1"⟩], 2, 3⟩

/-- Fixture store mirroring the repository's own `__main__` scenario: masks
`"default"` and `"Mask1"`, dialogue `"Dialogue1"`, and 30 messages with ids
1..30 in it. -/
def w30 : ChatState :=
  ⟨[⟨1, "default", ""⟩, ⟨2, "Mask1", "test mask"⟩], [⟨"Dialogue1", some 2⟩],
    (List.range 30).map (fun i =>
      ⟨i + 1, SenderType.USER, 7, SendType.TEXT, toString i, true, some "Dialogue1"⟩),
    3, 31⟩

/-- The method `create_dialogue` never changes the store: the existence test is the
always-truthy `Query` object, so the method always takes the early return. -/
theorem create_dialogue_state_eq (fault : Option String) (s : ChatState)
    (name mask_name : String) :
    (ChatSql.create_dialogue fault s name mask_name).state = s := by
  cases fault with
  | some e => rfl
  | none => rfl

/-- C1: `createDialogue` is claimed to be create-if-absent: inserting exactly
one new `Dialogue` row (with the resolved mask's id) when none named `name`
exists.  In the code the existence test on line 106 tests the `Query` object
itself instead of `.first()`, which is always truthy, so the method returns
early on every call and never inserts any row: the state is unchanged for
every input and fault condition, and in particular `createDialogue("D", "")`
on a freshly initialized store leaves no dialogue named `"D"`. -/
theorem C1_create_dialogue_never_inserts :
    (∀ (fault : Option String) (s : ChatState) (name mask_name : String),
        (ChatSql.create_dialogue fault s name mask_name).state = s)
      ∧ ((ChatSql.create_dialogue Option.none
            (ChatSql.init Option.none emptyState).state "D" "").state.dialogues.find?
          (fun d => d.dialogue_name == "D")) = Option.none :=
  ⟨create_dialogue_state_eq, by decide⟩

/-- C2: the claim says an omitted `sendTime` is bound to the call-time clock.
In the code the default `datetime.now()` is evaluated once at method
definition time, so the embedded method has no call-time clock input at all:
two consecutive defaulted calls both store the shared module-definition-time
value `defaultSendTime`, whatever the wall clock reads at either call. -/
theorem C2_default_send_time_definition_bound (defaultSendTime : Nat)
    (s : ChatState) (d1 d2 : String) (sn1 sn2 : SenderType) (ty1 ty2 : SendType)
    (i1 i2 : String) (b1 b2 : Bool) :
    ((ChatSql.add_message Option.none defaultSendTime
        (ChatSql.add_message Option.none defaultSendTime s
          d1 sn1 ty1 i1 b1 Option.none).state
        d2 sn2 ty2 i2 b2 Option.none).state.messages.map Message.send_time)
      = s.messages.map Message.send_time ++ [defaultSendTime, defaultSendTime] := by
  simp [ChatSql.add_message]

/-- C7: `addMessage` on a dialogue name that matches no `Dialogue` row still
constructs and inserts the `Message`, with a null dialogue reference; the
lookup miss is only printed (reported), nothing is raised, and the insert is
not rejected. -/
theorem C7_add_message_missing_dialogue (defaultSendTime : Nat) (s : ChatState)
    (D : String) (sender : SenderType) (ty : SendType) (info : String)
    (succ : Bool) (t : Nat) (h : s.firstDialogue D = none) :
    ChatSql.add_message Option.none defaultSendTime s D sender ty info succ (some t)
      = ⟨{ s with
            messages := s.messages ++
              [⟨s.next_message_id, sender, t, ty, info, succ, Option.none⟩],
            next_message_id := s.next_message_id + 1 }, (),
          [], ["Dialogue with name " ++ D ++ " not found"]⟩ := by
  simp [ChatSql.add_message, h]

/-- Witness for C7 at a concrete store: adding to the absent dialogue
`"ghost"` of the fixture appends a message with a null dialogue link and
prints the not-found report. -/
theorem C7_add_message_missing_dialogue_witness :
    ChatSql.add_message Option.none 9 wState "ghost"
        SenderType.USER SendType.TEXT "hi" true (some 5)
      = ⟨{ wState with
            messages := wState.messages ++
              [⟨wState.next_message_id, SenderType.USER, 5, SendType.TEXT, "hi", true,
                Option.none⟩],
            next_message_id := wState.next_message_id + 1 }, (),
          [], ["Dialogue with name " ++ "ghost" ++ " not found"]⟩ :=
  C7_add_message_missing_dialogue 9 wState "ghost" SenderType.USER SendType.TEXT
    "hi" true 5 (by decide)

/-- C8 counterexample: the claim says every operation returns a neutral result
(absent / empty) when a storage failure is caught.  `render` does not: on a
caught failure its except-branch returns `str(e)`, the failure's message
string, which is neither the absent value nor the empty string. -/
theorem C8_counterexample :
    (runOp 0 (some "database is locked") emptyState (Op.opFormat "dialogues")).ret
        = RetVal.str (some "database is locked")
      ∧ (runOp 0 (some "database is locked") emptyState (Op.opFormat "dialogues")).ret
        ≠ RetVal.str Option.none
      ∧ (runOp 0 (some "database is locked") emptyState (Op.opFormat "dialogues")).ret
        ≠ RetVal.str (some "") :=
  ⟨rfl, by decide, by decide⟩

/-- C8 amended: every repository operation catches any storage-layer failure
at its method boundary (the embedded methods are total, so nothing
propagates), writes the failure to the logging collaborator, and leaves the
store unchanged; every operation except `render` returns its neutral/absent
value, while `render` returns the caught error's message string. -/
theorem C8_amended_fault_policy (defaultSendTime : Nat) (e : String)
    (s : ChatState) (op : Op) :
    (runOp defaultSendTime (some e) s op).state = s
      ∧ (runOp defaultSendTime (some e) s op).logs = [e]
      ∧ (runOp defaultSendTime (some e) s op).ret = neutralRet op e := by
  cases op <;> exact ⟨rfl, rfl, rfl⟩

/-- C10: a format spec that is not `"dialogues"`, not `"masks"`, and does not
contain the substring `"messages"` falls into the unknown-specifier branch:
it logs, leaves the store unchanged, and the method returns Python `None`
rather than any string. -/
theorem C10_format_unknown_spec_returns_none (s : ChatState) (spec : String)
    (h1 : spec ≠ "dialogues") (h2 : spec ≠ "masks")
    (h3 : containsSub "messages".toList spec.toList = false) :
    (ChatSql.format Option.none s spec).ret = Option.none
      ∧ (ChatSql.format Option.none s spec).logs = ["Unknown format specifier"]
      ∧ (ChatSql.format Option.none s spec).state = s := by
  have h3l : containsSub ['m', 'e', 's', 's', 'a', 'g', 'e', 's'] spec.data = false := h3
  simp [ChatSql.format, h1, h2, h3l]

/-- Witness for C10 at the concrete spec `"hello"`. -/
theorem C10_format_unknown_spec_returns_none_witness :
    (ChatSql.format Option.none emptyState "hello").ret = Option.none
      ∧ (ChatSql.format Option.none emptyState "hello").logs
        = ["Unknown format specifier"]
      ∧ (ChatSql.format Option.none emptyState "hello").state = emptyState :=
  C10_format_unknown_spec_returns_none emptyState "hello"
    (by decide) (by decide) (by decide)

/-- C4 counterexample: the claim says every `"messages"` request missing the
count token or the dialogue-name token returns the "missing parameters"
diagnostic.  The request `"messages D"` is missing the count token, yet the
code reaches `int("D")`, whose `ValueError` is caught at the boundary and its
message string returned — not `"Miss parameters"`. -/
theorem C4_counterexample :
    (ChatSql.format Option.none emptyState "messages D").ret
        = some ("invalid literal for int() with base 10: D")
      ∧ (ChatSql.format Option.none emptyState "messages D").ret
        ≠ some "Miss parameters" := by
  exact ⟨rfl, by decide⟩

/-- C4 amended: only a `"messages"` request with fewer than two
space-separated tokens returns `"Miss parameters"`; a request with exactly two
tokens parses its second token as the count, and when that token is not an
integer literal the caught `int()` error's message string is logged and
returned instead — in either case nothing is raised to the caller (the
embedded method is total). -/
theorem C4_amended_malformed_messages (s : ChatState) (spec : String)
    (h1 : spec ≠ "dialogues") (h2 : spec ≠ "masks")
    (h3 : containsSub "messages".toList spec.toList = true) :
    ((pySplit spec).length < 2 →
        (ChatSql.format Option.none s spec).ret = some "Miss parameters")
      ∧ (∀ D e, pySplit spec = ["messages", D] → pyInt D = Except.error e →
          ChatSql.format Option.none s spec = ⟨s, some e, [e], []⟩) := by
  have h3l : containsSub ['m', 'e', 's', 's', 'a', 'g', 'e', 's'] spec.data = true := h3
  constructor
  · intro hlen
    simp [ChatSql.format, h1, h2, h3l, hlen]
  · intro D e hsplit herr
    have hlast : (pySplit spec).getLastD "" = D := by rw [hsplit]; rfl
    have hlen : ¬ (pySplit spec).length < 2 := by simp [hsplit]
    simp [ChatSql.format, h1, h2, h3l, hlen, List.getLastD_eq_getLast?] at hlast ⊢
    rw [hlast, herr]

/-- Witness for C4's amended statement: `"messages"` (one token) yields
`"Miss parameters"`, and `"messages D"` (count token missing) yields the
caught int-parse diagnostic. -/
theorem C4_amended_malformed_messages_witness :
    (ChatSql.format Option.none emptyState "messages").ret = some "Miss parameters"
      ∧ ChatSql.format Option.none emptyState "messages D"
        = ⟨emptyState, some ("invalid literal for int() with base 10: D"),
            ["invalid literal for int() with base 10: D"], []⟩ :=
  ⟨(C4_amended_malformed_messages emptyState "messages"
      (by decide) (by decide) (by decide)).1 (by decide),
   (C4_amended_malformed_messages emptyState "messages D"
      (by decide) (by decide) (by decide)).2 "D"
      ("invalid literal for int() with base 10: D") (by decide) rfl⟩

/-- C5: `getMessages` returns exactly the messages whose dialogue reference is
`D`, in row (insertion) order — so when the row ids of the store are strictly
increasing, the returned ids are strictly increasing — and returns the empty
list when no dialogue named `D` exists. -/
theorem C5_get_messages_ordered (s : ChatState) (D : String) :
    ((∃ d, s.firstDialogue D = some d) →
        (ChatSql.get_messages Option.none s D).ret = some (s.dialogueMessages D)
        ∧ (∀ m, m ∈ s.dialogueMessages D ↔ m ∈ s.messages ∧ m.dialogue_name = some D)
        ∧ ((s.messages.map Message.id).Pairwise (· < ·) →
            ((s.dialogueMessages D).map Message.id).Pairwise (· < ·)))
      ∧ (s.firstDialogue D = none →
        (ChatSql.get_messages Option.none s D).ret = some []) := by
  constructor
  · rintro ⟨d, hd⟩
    have hname : d.dialogue_name = D := by
      have := List.find?_some hd
      simpa using this
    refine ⟨?_, ?_, ?_⟩
    · simp [ChatSql.get_messages, hd, hname]
    · intro m
      simp [ChatState.dialogueMessages, List.mem_filter]
    · intro hasc
      exact List.Pairwise.sublist
        (List.Sublist.map Message.id (List.filter_sublist s.messages)) hasc
  · intro hnone
    simp [ChatSql.get_messages, hnone]

/-- Witness for C5: on the fixture, `"D1"` yields its two messages and the
absent `"ghost"` dialogue yields the empty list. -/
theorem C5_get_messages_ordered_witness :
    (ChatSql.get_messages Option.none wState "D1").ret
        = some (wState.dialogueMessages "D1")
      ∧ (ChatSql.get_messages Option.none wState "ghost").ret = some [] :=
  ⟨((C5_get_messages_ordered wState "D1").1 ⟨⟨"D1", some 1⟩, by decide⟩).1,
   (C5_get_messages_ordered wState "ghost").2 (by decide)⟩

/-- C6: `updateMessage(i, v)` on an existing id rewrites exactly the
`send_info` of the message with id `i` (all its other fields, all other
messages, and the masks, dialogues and counters are untouched, and nothing is
printed); on a non-existent id the store is returned unchanged and the
not-found report is printed. -/
theorem C6_update_message_frame (s : ChatState) (i : Nat) (v : String) :
    ((∃ m, m ∈ s.messages ∧ m.id = i) →
        ChatSql.update_message Option.none s i v
          = ⟨{ s with
                messages := s.messages.map (fun m =>
                  if m.id == i then { m with send_info := v } else m) }, (), [], []⟩)
      ∧ ((∀ m ∈ s.messages, m.id ≠ i) →
        ChatSql.update_message Option.none s i v
          = ⟨s, (), [], ["Message with id " ++ toString i ++ " not found"]⟩) := by
  constructor
  · rintro ⟨m, hm, hid⟩
    have hsome : (s.firstMessage i).isSome := by
      unfold ChatState.firstMessage
      rw [List.find?_isSome]
      exact ⟨m, hm, by simp [hid]⟩
    obtain ⟨m', hm'⟩ := Option.isSome_iff_exists.mp hsome
    simp [ChatSql.update_message, hm']
  · intro h
    have hnone : s.firstMessage i = none := by
      unfold ChatState.firstMessage
      rw [List.find?_eq_none]
      intro x hx
      simp [h x hx]
    simp [ChatSql.update_message, hnone]

/-- Witness for C6 on the fixture: updating the existing id 1 rewrites only
its `send_info`; updating the absent id 99 changes nothing and prints the
report. -/
theorem C6_update_message_frame_witness :
    ChatSql.update_message Option.none wState 1 "x"
        = ⟨{ wState with
              messages := wState.messages.map (fun m =>
                if m.id == 1 then { m with send_info := "x" } else m) }, (), [], []⟩
      ∧ ChatSql.update_message Option.none wState 99 "x"
        = ⟨wState, (), [], ["Message with id " ++ toString 99 ++ " not found"]⟩ :=
  ⟨(C6_update_message_frame wState 1 "x").1
      ⟨⟨1, SenderType.USER, 3, SendType.TEXT, "hi", true, some "D1"⟩, by decide, rfl⟩,
   (C6_update_message_frame wState 99 "x").2 (by decide)⟩

/-- The method `__format__` is read-only: whatever branch is taken (including all caught
failures), the store is unchanged. -/
theorem format_state_eq (fault : Option String) (s : ChatState) (spec : String) :
    (ChatSql.format fault s spec).state = s := by
  unfold ChatSql.format
  rcases fault with _ | e
  · dsimp only
    repeat' split
    all_goals rfl
  · rfl

/-- The method `add_mask` preserves distinctness of mask names: a duplicate insert is
rejected by the UNIQUE constraint (caught and logged), and a fresh insert
appends a name not yet present. -/
theorem add_mask_nodup (fault : Option String) (s : ChatState) (n d : String)
    (h : (s.masks.map Mask.mask_name).Nodup) :
    (((ChatSql.add_mask fault s n d).state.masks.map Mask.mask_name)).Nodup := by
  rcases fault with _ | e
  · simp only [ChatSql.add_mask]
    by_cases hdup : s.masks.any (fun m => m.mask_name == n) = true
    · rw [if_pos hdup]
      exact h
    · rw [if_neg hdup]
      show ((s.masks ++ [Mask.mk s.next_mask_id n d]).map Mask.mask_name).Nodup
      rw [List.map_append, List.nodup_append]
      refine ⟨h, List.nodup_singleton _, ?_⟩
      intro a ha hb
      simp only [List.map_cons, List.map_nil, List.mem_singleton] at hb
      subst hb
      apply hdup
      rw [List.any_eq_true]
      obtain ⟨m, hm, hmn⟩ := List.mem_map.mp ha
      exact ⟨m, hm, by simp [hmn]⟩
  · exact h

/-- C9: mask-name uniqueness.  (1) `addMask` on an already-present name is
caught by the UNIQUE constraint: nothing is raised (the embedded method is
total), the store is unchanged, and the failure is logged.  (2) Every
operation of the public surface, under any fault condition, preserves
distinctness of mask names.  (3) Initializing the store twice does not error
and leaves exactly the one mask `"default"`. -/
theorem C9_mask_name_uniqueness :
    (∀ (s : ChatState) (n d : String), (∃ m ∈ s.masks, m.mask_name = n) →
        ChatSql.add_mask Option.none s n d
          = ⟨s, (), ["UNIQUE constraint failed: mask.mask_name"], []⟩)
      ∧ (∀ (defaultSendTime : Nat) (fault : Option String) (s : ChatState) (op : Op),
          (s.masks.map Mask.mask_name).Nodup →
          (((runOp defaultSendTime fault s op).state.masks.map Mask.mask_name)).Nodup)
      ∧ (ChatSql.init Option.none
          (ChatSql.init Option.none emptyState).state).state.masks
          = [⟨1, "default", ""⟩] := by
  refine ⟨?_, ?_, by decide⟩
  · rintro s n d ⟨m, hm, hname⟩
    have hdup : s.masks.any (fun m => m.mask_name == n) = true := by
      rw [List.any_eq_true]
      exact ⟨m, hm, by simp [hname]⟩
    simp [ChatSql.add_mask, hdup]
  · intro defaultSendTime fault s op h
    cases op with
    | opInit =>
      rcases fault with _ | e
      · exact add_mask_nodup none s "default" "" h
      · exact h
    | opAddMask n d => exact add_mask_nodup fault s n d h
    | opGetMask n => rcases fault with _ | e <;> exact h
    | opDeleteMask n =>
      rcases fault with _ | e
      · rcases hret : s.firstMask n with _ | mk
        · simpa [runOp, mapOutcome, ChatSql.delete_mask, ChatSql.get_mask, hret] using h
        · simp only [runOp, mapOutcome, ChatSql.delete_mask, ChatSql.get_mask, hret]
          exact List.Nodup.sublist
            (List.Sublist.map Mask.mask_name (List.filter_sublist s.masks)) h
      · exact h
    | opCreateDialogue n mn =>
      have hcd := create_dialogue_state_eq fault s n mn
      unfold runOp mapOutcome
      rw [hcd]
      exact h
    | opGetDialogue n => rcases fault with _ | e <;> exact h
    | opAddMessage dn sender ty info succ t =>
      rcases fault with _ | e <;> simpa [runOp, mapOutcome, ChatSql.add_message] using h
    | opUpdateMessage i v =>
      rcases fault with _ | e
      · rcases hm : s.firstMessage i with _ | m <;>
          simpa [runOp, mapOutcome, ChatSql.update_message, hm] using h
      · exact h
    | opDeleteMessage i =>
      rcases fault with _ | e
      · rcases hm : s.firstMessage i with _ | m <;>
          simpa [runOp, mapOutcome, ChatSql.delete_message, hm] using h
      · exact h
    | opGetMessages n =>
      rcases fault with _ | e
      · rcases hm : s.firstDialogue n with _ | d <;>
          simpa [runOp, mapOutcome, ChatSql.get_messages, hm] using h
      · exact h
    | opFormat spec =>
      unfold runOp mapOutcome
      dsimp only
      rw [format_state_eq]
      exact h

/-- Witness for C9: on the fixture (whose only mask is `"default"`),
re-adding `"default"` is a logged no-op with the store unchanged, and an
operation run against the fixture preserves distinct mask names. -/
theorem C9_mask_name_uniqueness_witness :
    ChatSql.add_mask Option.none wState "default" "x"
        = ⟨wState, (), ["UNIQUE constraint failed: mask.mask_name"], []⟩
      ∧ (((runOp 0 Option.none wState
            (Op.opAddMask "default" "y")).state.masks.map Mask.mask_name)).Nodup :=
  ⟨C9_mask_name_uniqueness.1 wState "default" "x" ⟨⟨1, "default", ""⟩, by decide, rfl⟩,
   C9_mask_name_uniqueness.2.1 0 Option.none wState (Op.opAddMask "default" "y")
     (by decide)⟩

/-- Inserting a message whose id is strictly below every id of `l` lands at
the end of `l`. -/
theorem insertDescById_all_gt (m : Message) (l : List Message)
    (h : ∀ x ∈ l, m.id < x.id) : insertDescById m l = l ++ [m] := by
  induction l with
  | nil => rfl
  | cons x xs ih =>
    have hx : ¬ x.id ≤ m.id := Nat.not_le.mpr (h x (List.mem_cons_self x xs))
    simp only [insertDescById, if_neg hx, List.cons_append]
    rw [ih (fun y hy => h y (List.mem_cons_of_mem x hy))]

/-- On a list whose ids are strictly ascending, the descending sort used by
`__format__` is exactly list reversal. -/
theorem sortDescById_eq_reverse (l : List Message)
    (h : l.Pairwise (fun a b => a.id < b.id)) : sortDescById l = l.reverse := by
  induction l with
  | nil => rfl
  | cons m xs ih =>
    rw [List.pairwise_cons] at h
    simp only [sortDescById]
    rw [ih h.2, insertDescById_all_gt m xs.reverse
      (fun x hx => h.1 x (List.mem_reverse.mp hx)), List.reverse_cons]

/-- The Python slice `l[:k]` for a nonnegative count is `take k`. -/
theorem pySlice_ofNat (k : Nat) (l : List α) : pySlice (Int.ofNat k) l = l.take k := by
  simp [pySlice]

/-- Evaluation of the `"messages <name> <count>"` branch of `__format__` when
the spec splits into exactly three tokens, the count token parses, and the
dialogue exists. -/
theorem format_messages_branch (s : ChatState) (spec : String)
    (h1 : spec ≠ "dialogues") (h2 : spec ≠ "masks")
    (h3 : containsSub "messages".toList spec.toList = true)
    (D kStr : String) (hsplit : pySplit spec = ["messages", D, kStr])
    (n : Int) (hk : pyInt kStr = Except.ok n)
    (d : Dialogue) (hd : s.firstDialogue D = some d) :
    ChatSql.format Option.none s spec
      = ⟨s, some (String.intercalate "\n"
          ((pySlice n (sortDescById (s.dialogueMessages d.dialogue_name))).map
            ChatSql.message_line)), [], []⟩ := by
  have h3l : containsSub ['m', 'e', 's', 's', 'a', 'g', 'e', 's'] spec.data = true := h3
  have hlen : ¬ (pySplit spec).length < 2 := by simp [hsplit]
  have hlast : (pySplit spec).getLastD "" = kStr := by rw [hsplit]; rfl
  have hget1 : (pySplit spec).getD 1 "" = D := by rw [hsplit]; rfl
  simp [ChatSql.format, h1, h2, h3l, hlen, List.getLastD_eq_getLast?,
    List.getD_eq_getElem?_getD] at hlast hget1 ⊢
  rw [hlast, hk, hget1, hd]

/-- C3: a well-formed request `"messages " ++ D ++ " " ++ kStr` whose count
token parses to `k`, on an existing dialogue `D` whose stored messages have
strictly ascending ids and number at least `k`, renders exactly the lines of
the `k` messages of `D` with the largest ids, in descending id order (the
last `k` stored messages, reversed): the rendered list has length `k`, is
strictly descending in id, and every non-rendered message of `D` has a
smaller id than every rendered one. -/
theorem C3_render_newest_messages (s : ChatState) (D kStr : String) (k : Nat)
    (hsplit : pySplit ("messages " ++ D ++ " " ++ kStr) = ["messages", D, kStr])
    (hinf : containsSub "messages".toList ("messages " ++ D ++ " " ++ kStr).toList = true)
    (hk : pyInt kStr = Except.ok (Int.ofNat k))
    (d : Dialogue) (hd : s.firstDialogue D = some d)
    (hasc : (s.dialogueMessages D).Pairwise (fun a b => a.id < b.id))
    (hlen : k ≤ (s.dialogueMessages D).length) :
    ((ChatSql.format Option.none s ("messages " ++ D ++ " " ++ kStr)).ret
        = some (String.intercalate "\n"
            ((((s.dialogueMessages D).drop ((s.dialogueMessages D).length - k)).reverse).map
              ChatSql.message_line)))
      ∧ (((s.dialogueMessages D).drop ((s.dialogueMessages D).length - k)).reverse).length = k
      ∧ ((((s.dialogueMessages D).drop ((s.dialogueMessages D).length - k)).reverse).Pairwise
          (fun a b => b.id < a.id))
      ∧ (∀ x ∈ s.dialogueMessages D,
          x ∉ ((s.dialogueMessages D).drop ((s.dialogueMessages D).length - k)).reverse →
          ∀ y ∈ ((s.dialogueMessages D).drop ((s.dialogueMessages D).length - k)).reverse,
            x.id < y.id) := by
  have hne1 : ("messages " ++ D ++ " " ++ kStr) ≠ "dialogues" := by
    intro hEq
    rw [hEq] at hsplit
    have hone : (pySplit "dialogues").length = 1 := by decide
    rw [hsplit] at hone
    simp at hone
  have hne2 : ("messages " ++ D ++ " " ++ kStr) ≠ "masks" := by
    intro hEq
    rw [hEq] at hsplit
    have hone : (pySplit "masks").length = 1 := by decide
    rw [hsplit] at hone
    simp at hone
  have hdname : d.dialogue_name = D := by
    have := List.find?_some hd
    simpa using this
  have hmain := format_messages_branch s ("messages " ++ D ++ " " ++ kStr)
    hne1 hne2 hinf D kStr hsplit (Int.ofNat k) hk d hd
  refine ⟨?_, ?_, ?_, ?_⟩
  · rw [hmain]
    dsimp only
    rw [hdname, sortDescById_eq_reverse _ hasc, pySlice_ofNat, List.take_reverse]
  · rw [List.length_reverse, List.length_drop]
    omega
  · rw [List.pairwise_reverse]
    exact List.Pairwise.sublist (List.drop_sublist _ _) hasc
  · intro x hx hxn y hy
    rw [List.mem_reverse] at hxn hy
    have hsp := List.take_append_drop ((s.dialogueMessages D).length - k)
      (s.dialogueMessages D)
    have hp : ((s.dialogueMessages D).take ((s.dialogueMessages D).length - k)
        ++ (s.dialogueMessages D).drop ((s.dialogueMessages D).length - k)).Pairwise
        (fun a b => a.id < b.id) := by rw [hsp]; exact hasc
    rw [List.pairwise_append] at hp
    have hx2 : x ∈ (s.dialogueMessages D).take ((s.dialogueMessages D).length - k)
        ∨ x ∈ (s.dialogueMessages D).drop ((s.dialogueMessages D).length - k) := by
      rw [← List.mem_append, hsp]
      exact hx
    rcases hx2 with hx2 | hx2
    · exact hp.2.2 x hx2 y hy
    · exact absurd hx2 hxn

/-- Witness for C3, mirroring the repository's `__main__` scenario: rendering
`"messages Dialogue1 5"` on the fixture with messages of ids 1..30 yields the
lines of the last five messages (ids 30,29,28,27,26) in that order. -/
theorem C3_render_newest_messages_witness :
    (ChatSql.format Option.none w30 "messages Dialogue1 5").ret
      = some (String.intercalate "\n"
          ((((w30.dialogueMessages "Dialogue1").drop
              ((w30.dialogueMessages "Dialogue1").length - 5)).reverse).map
            ChatSql.message_line)) :=
  (C3_render_newest_messages w30 "Dialogue1" "5" 5 (by decide) (by decide) rfl
    ⟨"Dialogue1", some 2⟩ (by decide) (by decide) (by decide)).1
